import Mathlib

/-!
Shallow embedding of the procedural narrative-event generator of the
`requaos/simple-lake` repository (src/game_data.rs, src/procedural/).

Modelling conventions:
- Rust machine integers are modelled as Nat/Int.  Where an overflow or a
  reinterpreting cast is semantically relevant (the `(gap * 5) as i32` cast in
  risk_calculator.rs) the u32 arithmetic is taken modulo 2^32 and the cast by
  two's-complement reinterpretation.  i32 division is by truncation toward zero.
- f32 arithmetic is modelled as exact arithmetic on unnormalised fractions
  (`Frac`), with `as i32` as truncation toward zero.
- Randomness (`rand::Rng`) is modelled as an explicit state: three streams of
  pre-drawn values (booleans for `random_bool`, fractions for `gen_range` on
  floats, naturals for index selection).  `SliceRandom::choose` consumes one
  index draw exactly when the slice is non-empty, mirroring rand.
- `HashMap` iteration order is immaterial to every property proved here; maps
  are modelled as association lists, sets as lists.
- A Rust panic (`expect`, out-of-bounds indexing) is modelled as
  `Except.error` with the panic message.
- Strings that undergo `{placeholder}` substitution are modelled as token
  lists (`Text`): literal chunks and placeholder tokens; authored word-list
  values are literal words.  `String::contains`/`String::replace` on a
  placeholder become token membership / token mapping.
-/

namespace SimpleLake

/-- Explicit randomness state: pre-drawn booleans (for `random_bool`),
fractions (for float `gen_range`), and naturals (for index choices). -/
structure Rng where
  bools : List Bool := []
  floats : List (Int × Nat) := []
  indices : List Nat := []
deriving DecidableEq

/-- Exact fraction; stands in for an `f32` value (every f32 is rational).
`den = 0` never arises from the modelled code. -/
structure Frac where
  num : Int
  den : Nat
deriving DecidableEq

def Frac.mul (a b : Frac) : Frac := ⟨a.num * b.num, a.den * b.den⟩

/-- Rust `as i32` on an f32 value: truncation toward zero. -/
def truncF (f : Frac) : Int :=
  if 0 ≤ f.num then f.num / (f.den : Int) else -((-f.num) / (f.den : Int))

/-- Rust i32 `/`: division truncating toward zero (here only used with a
positive divisor). -/
def rustDiv (a b : Int) : Int := if 0 ≤ a then a / b else -((-a) / b)

/-- Reinterpret a u32 value (a natural below 2^32) as an i32, as Rust
`as i32` does on a u32. -/
def u32_as_i32 (n : Nat) : Int :=
  if n < 2147483648 then (n : Int) else (n : Int) - 4294967296

def Rng.nextBool (r : Rng) : Bool × Rng :=
  (r.bools.headD false, { r with bools := r.bools.tail })

def Rng.nextFloat (r : Rng) : Frac × Rng :=
  (match r.floats.headD (1, 1) with | (n, d) => ⟨n, d⟩, { r with floats := r.floats.tail })

def Rng.nextIndex (r : Rng) : Nat × Rng :=
  (r.indices.headD 0, { r with indices := r.indices.tail })

/-- `SliceRandom::choose`: uniform pick from a slice; returns `none` on an
empty slice without consuming randomness, otherwise consumes one index draw. -/
def choose (l : List α) (rng : Rng) : Option α × Rng :=
  if l.isEmpty then (none, rng)
  else
    let nr := rng.nextIndex
    (l[nr.1 % l.length]?, nr.2)

/-- `WeightedIndex::new` followed by `sample`: fails (as `WeightedIndex::new`
does) when the weight list is empty, holds a negative weight, or has zero
total; otherwise returns an index carrying positive weight. -/
def weightedIndex (weights : List Frac) (rng : Rng) : Option (Nat × Rng) :=
  if weights = [] ∨ weights.any (fun w => w.num < 0) ∨ weights.all (fun w => w.num ≤ 0) then
    none
  else
    let pos := (List.range weights.length).filter (fun i => 0 < (weights.getD i ⟨0, 1⟩).num)
    let nr := rng.nextIndex
    some (pos.getD (nr.1 % pos.length) 0, nr.2)

/-- A piece of substitutable text: a literal chunk or a `{name}` placeholder. -/
inductive Tok where
  | lit (s : String)
  | ph (name : String)
deriving DecidableEq

/-- Text under placeholder substitution, as a token list. -/
abbrev Text := List Tok

/-- `text.contains` of a placeholder token. -/
def containsPh (t : Text) (name : String) : Bool :=
  t.any (fun tok => tok = Tok.ph name)

/-- `text.replace` of a placeholder by a word-list value. -/
def replacePh (t : Text) (name : String) (value : String) : Text :=
  t.map (fun tok => if tok = Tok.ph name then Tok.lit value else tok)

/-- library.rs `EventDomain`. -/
inductive EventDomain where
  | Family
  | Work
  | Public
  | Party
deriving DecidableEq

def EventDomain.as_str : EventDomain → String
  | .Family => "Family"
  | .Work => "Work"
  | .Public => "Public"
  | .Party => "Party"

/-- library.rs `Severity`. -/
inductive Severity where
  | Low
  | Medium
  | High
deriving DecidableEq

/-- library.rs `ChoiceType`. -/
inductive ChoiceType where
  | Conform
  | Resist
  | Manipulate
  | Ignore
deriving DecidableEq

def ChoiceType.as_str : ChoiceType → String
  | .Conform => "conform"
  | .Resist => "resist"
  | .Manipulate => "manipulate"
  | .Ignore => "ignore"

/-- library.rs `StatProfile`: six signed stat deltas. -/
structure StatProfile where
  scs_change : Int := 0
  finance_change : Int := 0
  career_level_change : Int := 0
  guanxi_family_change : Int := 0
  guanxi_network_change : Int := 0
  guanxi_party_change : Int := 0
deriving DecidableEq

/-- library.rs `NarrativeFragments`. -/
structure NarrativeFragments where
  openings : List Text
  conflicts : List Text
  stakes : List Text
deriving DecidableEq

/-- library.rs `ChoiceArchetype`. -/
structure ChoiceArchetype where
  archetype : ChoiceType
  text_fragments : List String
  base_stats : StatProfile
  risk_modifier : Int := 0
  requirements : List (String × Nat) := []
deriving DecidableEq

/-- library.rs `SituationTemplate`. -/
structure SituationTemplate where
  id : String
  domain : EventDomain
  tier_min : Nat
  tier_max : Nat
  life_stage_min : Nat
  life_stage_max : Nat
  severity : Severity
  base_risk : Nat
  fragments : NarrativeFragments
  choices : List ChoiceArchetype
deriving DecidableEq

/-- library.rs `VariableLibraries`: the named word-lists; `colleague_descriptors`
is keyed by the tier rendered as a string. -/
structure VariableLibraries where
  colleague_descriptors : List (String × List String) := []
  excuse_library : List String := []
  work_time : List String := []
  work_colleague : List String := []
  work_day : List String := []
  work_obligation : List String := []
  work_record : List String := []
  overtime_period : List String := []
  work_project : List String := []
  safety_violation : List String := []
  political_metric : List String := []
  monitoring_target : List String := []
  political_team_activity : List String := []
  work_mistake : List String := []
  bribe_amount : List String := []
  work_decision : List String := []
  relationship_types : List String := []
  parent_type : List String := []
  sibling_type : List String := []
  relative_type : List String := []
  small_amount : List String := []
  medium_amount : List String := []
  large_amount : List String := []
  time_period : List String := []
  authority_figure : List String := []
  infraction : List String := []
  unpractical_subject : List String := []
  practical_subject : List String := []
  personal_topic : List String := []
  successful_relative : List String := []
  unsuitable_match : List String := []
  political_topic : List String := []
  day_time : List String := []
  time_duration : List String := []
  party_observer : List String := []
  membership_level : List String := []
  party_official : List String := []
  controversial_topic : List String := []
  denouncement_target : List String := []
  political_crime : List String := []
  volunteer_activity : List String := []
  party_elite : List String := []
  favor_request : List String := []
  propaganda_campaign : List String := []
  propaganda_activity : List String := []
  wait_time : List String := []
  stranger_type : List String := []
  small_favor : List String := []
  public_place : List String := []
  appointment_type : List String := []
  public_violation : List String := []
  violation_perpetrator : List String := []
  public_service : List String := []
  queue_jumper : List String := []
  public_transport : List String := []
  seat_requester : List String := []
  suspicious_behavior : List String := []
  survey_topic : List String := []
deriving DecidableEq

/-- library.rs `SituationLibrary`.  The source field `variables` is a reserved
word in Lean, so it is written `variables'` here. -/
structure SituationLibrary where
  by_domain : List (EventDomain × List SituationTemplate) := []
  variables' : VariableLibraries := {}
deriving DecidableEq

/-- game_data.rs `EventOutcome`. -/
structure EventOutcome where
  scs_change : Int := 0
  finance_change : Int := 0
  career_level_change : Int := 0
  guanxi_family_change : Int := 0
  guanxi_network_change : Int := 0
  guanxi_party_change : Int := 0
deriving DecidableEq

/-- game_data.rs `EventOption`. -/
structure EventOption where
  text : String
  requirements : List (String × Nat) := []
  risk_chance : Nat := 0
  success_outcome : EventOutcome := {}
  success_result : String := ""
  failure_outcome : Option EventOutcome := none
  failure_result : String := ""
deriving DecidableEq

/-- game_data.rs `EventData` (description as substitutable text). -/
structure EventData where
  title : String
  description : Text
  options : List EventOption
  min_tier : Nat := 0
  max_tier : Nat := 0
  is_generic : Bool := false
  life_stage : Nat := 0
  procedural_id : Option String := none
  procedural_domain : Option String := none
deriving DecidableEq

/-- risk_calculator.rs `PlayerStats`. -/
structure PlayerStats where
  guanxi_family : Nat := 0
  guanxi_network : Nat := 0
  guanxi_party : Nat := 0
  career_level : Nat := 0
deriving DecidableEq

/-- The player-state fields consumed by event generation.  The `LotusApp`
struct definition itself lives in the crate root, which holds a superseded
revision in this snapshot (main.rs); the fields and their types are exactly
those used by game_data.rs, app.rs and procedural/generator.rs. -/
structure LotusApp where
  player_tier : Nat := 0
  life_stage : Nat := 1
  guanxi_family : Nat := 0
  guanxi_network : Nat := 0
  guanxi_party : Nat := 0
  career_level : Nat := 0
  recent_event_domains : List EventDomain := []
  encounter_history : List String := []
  situation_library : SituationLibrary := {}
  event_database : List EventData := []
  event_index : List ((Nat × Nat) × (List Nat × List Nat)) := []
deriving DecidableEq

/-- The stat lookup of risk_calculator.rs `calculate_risk` (the `match` on the
requirement key; an unrecognized key yields 0). -/
def playerStatValue (ps : PlayerStats) (key : String) : Nat :=
  if key = "guanxi_family" then ps.guanxi_family
  else if key = "guanxi_network" then ps.guanxi_network
  else if key = "guanxi_party" then ps.guanxi_party
  else if key = "career_level" then ps.career_level
  else 0

/-- risk_calculator.rs `calculate_risk`.  `gap` is the u32 `saturating_sub`;
`(gap * 5) as i32` is u32 arithmetic modulo 2^32 reinterpreted as i32. -/
def calculate_risk (base_risk : Nat) (risk_modifier : Int)
    (requirements : List (String × Nat)) (player_state : PlayerStats) : Nat :=
  let risk : Int := (base_risk : Int)
  let risk := requirements.foldl
    (fun r kv => r + u32_as_i32 ((kv.2 - playerStatValue player_state kv.1) * 5 % 4294967296))
    risk
  let risk := risk + risk_modifier
  (max 0 (min risk 95)).toNat

/-- stat_calculator.rs severity multiplier (0.5 / 1.0 / 2.0). -/
def severityMultiplier : Severity → Frac
  | .Low => ⟨1, 2⟩
  | .Medium => ⟨1, 1⟩
  | .High => ⟨2, 1⟩

/-- stat_calculator.rs `calculate_stats`: one variance draw per call, the same
multiplier applied to all six base deltas, each product truncated toward
zero. -/
def calculate_stats (base_stats : StatProfile) (player_tier : Nat) (severity : Severity)
    (rng : Rng) : StatProfile × Rng :=
  let tier_multiplier : Frac := Frac.mul ⟨(player_tier : Int) + 1, 1⟩ ⟨3, 2⟩
  let severity_multiplier := severityMultiplier severity
  let vr := rng.nextFloat
  let random_variance := vr.1
  let multiplier := Frac.mul (Frac.mul tier_multiplier severity_multiplier) random_variance
  ({ scs_change := truncF (Frac.mul ⟨base_stats.scs_change, 1⟩ multiplier),
     finance_change := truncF (Frac.mul ⟨base_stats.finance_change, 1⟩ multiplier),
     career_level_change := truncF (Frac.mul ⟨base_stats.career_level_change, 1⟩ multiplier),
     guanxi_family_change := truncF (Frac.mul ⟨base_stats.guanxi_family_change, 1⟩ multiplier),
     guanxi_network_change := truncF (Frac.mul ⟨base_stats.guanxi_network_change, 1⟩ multiplier),
     guanxi_party_change := truncF (Frac.mul ⟨base_stats.guanxi_party_change, 1⟩ multiplier) },
   vr.2)

/-- stat_calculator.rs `calculate_failure_stats`: every field is
`-field * 3 / 2` in i32 arithmetic (division truncating toward zero). -/
def calculate_failure_stats (success_stats : StatProfile) : StatProfile :=
  { scs_change := rustDiv (-success_stats.scs_change * 3) 2,
    finance_change := rustDiv (-success_stats.finance_change * 3) 2,
    career_level_change := rustDiv (-success_stats.career_level_change * 3) 2,
    guanxi_family_change := rustDiv (-success_stats.guanxi_family_change * 3) 2,
    guanxi_network_change := rustDiv (-success_stats.guanxi_network_change * 3) 2,
    guanxi_party_change := rustDiv (-success_stats.guanxi_party_change * 3) 2 }

/-- The ordered `substitute!` table of text_assembly.rs lines 71-132:
placeholder name and the word-list it draws from, in source order.
`wait_time` is deliberately nowhere in this table. -/
def substitutionTable (v : VariableLibraries) : List (String × List String) :=
  [("excuse", v.excuse_library),
   ("work_time", v.work_time),
   ("work_colleague", v.work_colleague),
   ("work_day", v.work_day),
   ("work_obligation", v.work_obligation),
   ("work_record", v.work_record),
   ("overtime_period", v.overtime_period),
   ("work_project", v.work_project),
   ("safety_violation", v.safety_violation),
   ("political_metric", v.political_metric),
   ("monitoring_target", v.monitoring_target),
   ("political_team_activity", v.political_team_activity),
   ("work_mistake", v.work_mistake),
   ("bribe_amount", v.bribe_amount),
   ("work_decision", v.work_decision),
   ("relationship_type", v.relationship_types),
   ("parent_type", v.parent_type),
   ("sibling_type", v.sibling_type),
   ("relative_type", v.relative_type),
   ("small_amount", v.small_amount),
   ("medium_amount", v.medium_amount),
   ("large_amount", v.large_amount),
   ("time_period", v.time_period),
   ("authority_figure", v.authority_figure),
   ("infraction", v.infraction),
   ("unpractical_subject", v.unpractical_subject),
   ("practical_subject", v.practical_subject),
   ("personal_topic", v.personal_topic),
   ("successful_relative", v.successful_relative),
   ("unsuitable_match", v.unsuitable_match),
   ("political_topic", v.political_topic),
   ("day_time", v.day_time),
   ("time_duration", v.time_duration),
   ("party_observer", v.party_observer),
   ("membership_level", v.membership_level),
   ("party_official", v.party_official),
   ("controversial_topic", v.controversial_topic),
   ("denouncement_target", v.denouncement_target),
   ("political_crime", v.political_crime),
   ("volunteer_activity", v.volunteer_activity),
   ("party_elite", v.party_elite),
   ("favor_request", v.favor_request),
   ("propaganda_campaign", v.propaganda_campaign),
   ("propaganda_activity", v.propaganda_activity),
   ("stranger_type", v.stranger_type),
   ("small_favor", v.small_favor),
   ("public_place", v.public_place),
   ("appointment_type", v.appointment_type),
   ("public_violation", v.public_violation),
   ("violation_perpetrator", v.violation_perpetrator),
   ("public_service", v.public_service),
   ("queue_jumper", v.queue_jumper),
   ("public_transport", v.public_transport),
   ("seat_requester", v.seat_requester),
   ("suspicious_behavior", v.suspicious_behavior),
   ("survey_topic", v.survey_topic)]

/-- One expansion of the `substitute!` macro of text_assembly.rs: replace the
placeholder by a random word when the list is non-empty and the placeholder
occurs, otherwise leave text and randomness untouched. -/
def substituteOne (st : Text × Rng) (entry : String × List String) : Text × Rng :=
  if entry.2.isEmpty = false ∧ containsPh st.1 entry.1 then
    match choose entry.2 st.2 with
    | (some value, rng1) => (replacePh st.1 entry.1 value, rng1)
    | (none, rng1) => (st.1, rng1)
  else st

/-- The tier-aware `{colleague_descriptor}` branch of text_assembly.rs
`substitute_variables` (lines 58-68): look up the tier key, fall back to the
fixed key "2", and `expect` — a panic, modelled as an error — when both are
absent; an empty list found under a present key leaves the placeholder
unresolved. -/
def colleagueStep (text : Text) (variables' : VariableLibraries) (player_tier : Nat)
    (rng : Rng) : Except String (Text × Rng) :=
  if containsPh text "colleague_descriptor" then
    match Option.orElse (variables'.colleague_descriptors.lookup (Nat.repr player_tier))
        (fun _ => variables'.colleague_descriptors.lookup "2") with
    | none => .error "No colleague descriptors"
    | some descriptors =>
      match choose descriptors rng with
      | (some descriptor, rng1) =>
        .ok (replacePh text "colleague_descriptor" descriptor, rng1)
      | (none, rng1) => .ok (text, rng1)
  else .ok (text, rng)

/-- text_assembly.rs `substitute_variables`: the `{colleague_descriptor}`
branch, then the 56 `substitute!` lines in order. -/
def substitute_variables (text : Text) (variables' : VariableLibraries) (player_tier : Nat)
    (rng : Rng) : Except String (Text × Rng) :=
  match colleagueStep text variables' player_tier rng with
  | .error e => .error e
  | .ok st => .ok ((substitutionTable variables').foldl substituteOne st)

/-- text_assembly.rs `assemble_description`: one random fragment from each of
openings, conflicts, stakes (each `expect` panics on an empty list), space
joined, then substituted. -/
def assemble_description (fragments : NarrativeFragments) (variables' : VariableLibraries)
    (player_tier : Nat) (rng : Rng) : Except String (Text × Rng) :=
  match choose fragments.openings rng with
  | (none, _) => .error "No opening fragments"
  | (some opening, rng1) =>
    match choose fragments.conflicts rng1 with
    | (none, _) => .error "No conflict fragments"
    | (some conflict, rng2) =>
      match choose fragments.stakes rng2 with
      | (none, _) => .error "No stakes fragments"
      | (some stakes, rng3) =>
        let text := opening ++ [Tok.lit " "] ++ conflict ++ [Tok.lit " "] ++ stakes
        substitute_variables text variables' player_tier rng3

/-- text_assembly.rs `assemble_choice_text` (`expect` panics on an empty
fragment list). -/
def assemble_choice_text (text_fragments : List String) (rng : Rng) :
    Except String (String × Rng) :=
  match choose text_fragments rng with
  | (none, _) => .error "No choice text fragments"
  | (some t, rng1) => .ok (t, rng1)

/-- Helper struct for TOML deserialization (library.rs `SituationConfig`). -/
structure SituationConfig where
  situations : List SituationTemplate
deriving DecidableEq

/-- library.rs `SituationLibrary::from_embedded_configs`, taken from the point
where the five embedded TOML files have parsed (parse failures are the
function's only error exits; the rest of the body only logs — in particular
empty fragment or word lists are never rejected). -/
def from_embedded_configs (work_config family_config public_config party_config : SituationConfig)
    (variables' : VariableLibraries) : Except String SituationLibrary :=
  .ok { by_domain :=
          [(EventDomain.Work, work_config.situations),
           (EventDomain.Family, family_config.situations),
           (EventDomain.Public, public_config.situations),
           (EventDomain.Party, party_config.situations)],
        variables' := variables' }

/-- The stat lookup shared by the two identical `player_meets_requirements`
functions (game_data.rs lines 65-80 and generator.rs lines 93-111). -/
def playerStatLookup (p : LotusApp) (key : String) : Nat :=
  if key = "guanxi_family" then p.guanxi_family
  else if key = "guanxi_network" then p.guanxi_network
  else if key = "guanxi_party" then p.guanxi_party
  else if key = "career_level" then p.career_level
  else 0

/-- `player_meets_requirements` (game_data.rs / generator.rs): every
requirement entry must be met; the early-return loop is the conjunction over
entries. -/
def player_meets_requirements (p : LotusApp) (requirements : List (String × Nat)) : Bool :=
  requirements.all (fun kv => decide (kv.2 ≤ playerStatLookup p kv.1))

/-- The filter predicate of generator.rs `filter_situations` (the logging-free
content of the early-return chain: tier tolerance, life-stage tolerance,
encounter history, and — unless wildcard — the recent-domain check on the last
two domains). -/
def situationPasses (player_tier life_stage : Nat) (recent_domains : List EventDomain)
    (encounter_history : List String) (allow_wildcard : Bool) (s : SituationTemplate) : Bool :=
  (decide (s.tier_min ≤ player_tier + 1) && decide (player_tier - 1 ≤ s.tier_max))
  && (decide (s.life_stage_min ≤ life_stage)
      && decide (max (life_stage - 1) 1 ≤ s.life_stage_max))
  && (!(encounter_history.contains s.id))
  && (allow_wildcard || !((recent_domains.take 2).contains s.domain))

/-- generator.rs `filter_situations`. -/
def filter_situations (situations : List SituationTemplate) (player_tier life_stage : Nat)
    (recent_domains : List EventDomain) (encounter_history : List String)
    (allow_wildcard : Bool) : List SituationTemplate :=
  situations.filter
    (situationPasses player_tier life_stage recent_domains encounter_history allow_wildcard)

/-- The per-candidate selection weight of generator.rs lines 152-171: 1.0,
doubled on an exact tier match, doubled again on an exact stage match. -/
def weightOf (p : LotusApp) (s : SituationTemplate) : Frac :=
  let weight : Frac := ⟨1, 1⟩
  let weight := if s.tier_min ≤ p.player_tier ∧ p.player_tier ≤ s.tier_max
    then Frac.mul weight ⟨2, 1⟩ else weight
  let weight := if s.life_stage_min ≤ p.life_stage ∧ p.life_stage ≤ s.life_stage_max
    then Frac.mul weight ⟨2, 1⟩ else weight
  weight

/-- generator.rs lines 240-312: build one `EventOption` from a surviving
choice (choice text, success stats, failure stats, risk, result strings). -/
def buildOption (p : LotusApp) (s : SituationTemplate) (choice : ChoiceArchetype)
    (rng : Rng) : Except String (EventOption × Rng) :=
  match assemble_choice_text choice.text_fragments rng with
  | .error e => .error e
  | .ok (text, rng1) =>
    let sr := calculate_stats choice.base_stats p.player_tier s.severity rng1
    let success_stats := sr.1
    let failure_stats := calculate_failure_stats success_stats
    let player_stats : PlayerStats :=
      { guanxi_family := p.guanxi_family, guanxi_network := p.guanxi_network,
        guanxi_party := p.guanxi_party, career_level := p.career_level }
    let risk_chance := calculate_risk s.base_risk choice.risk_modifier choice.requirements
      player_stats
    let success_result := "You chose to " ++ choice.archetype.as_str ++ ". "
      ++ (if 0 < success_stats.scs_change then "Things went well."
          else "There were consequences.")
    let failure_result := "You chose to " ++ choice.archetype.as_str
      ++ ", but it backfired. Things did not go as planned."
    .ok ({ text := text,
           requirements := choice.requirements,
           risk_chance := risk_chance,
           success_outcome :=
             { scs_change := success_stats.scs_change,
               finance_change := success_stats.finance_change,
               career_level_change := success_stats.career_level_change,
               guanxi_family_change := success_stats.guanxi_family_change,
               guanxi_network_change := success_stats.guanxi_network_change,
               guanxi_party_change := success_stats.guanxi_party_change },
           success_result := success_result,
           failure_outcome := some
             { scs_change := failure_stats.scs_change,
               finance_change := failure_stats.finance_change,
               career_level_change := failure_stats.career_level_change,
               guanxi_family_change := failure_stats.guanxi_family_change,
               guanxi_network_change := failure_stats.guanxi_network_change,
               guanxi_party_change := failure_stats.guanxi_party_change },
           failure_result := failure_result }, sr.2)

/-- Thread the `Rng` through a per-element builder that can panic, in list
order (the `map` over surviving choices with the shared `&mut rng`). -/
def mapWithRng (f : α → Rng → Except String (β × Rng)) :
    List α → Rng → Except String (List β × Rng)
  | [], rng => .ok ([], rng)
  | a :: rest, rng =>
    match f a rng with
    | .error e => .error e
    | .ok (b, rng1) =>
      match mapWithRng f rest rng1 with
      | .error e => .error e
      | .ok (bs, rng2) => .ok (b :: bs, rng2)

/-- The severity label used by the procedural event title. -/
def severityLabel : Severity → String
  | .Low => "Low"
  | .Medium => "Medium"
  | .High => "High"

/-- generator.rs `generate_procedural_event`: wildcard draw, flatten, filter,
weighted selection, description and title assembly, requirement filtering of
choices, option building.  `.ok none` is the generation-miss result. -/
def generate_procedural_event (p : LotusApp) (rng : Rng) :
    Except String (Option EventData × Rng) :=
  let library := p.situation_library
  let wr := rng.nextBool
  let allow_wildcard := wr.1
  let rng0 := wr.2
  let all_situations := (library.by_domain.map Prod.snd).flatten
  let candidates := filter_situations all_situations p.player_tier p.life_stage
    p.recent_event_domains p.encounter_history allow_wildcard
  if candidates.isEmpty then .ok (none, rng0)
  else
    let weights := candidates.map (weightOf p)
    match weightedIndex weights rng0 with
    | none => .ok (none, rng0)
    | some (i, rng1) =>
      match candidates[i]? with
      | none => .error "index out of bounds"
      | some selected_situation =>
        match assemble_description selected_situation.fragments library.variables'
            p.player_tier rng1 with
        | .error e => .error e
        | .ok (description, rng2) =>
          let title := selected_situation.domain.as_str ++ " - "
            ++ severityLabel selected_situation.severity ++ " Severity"
          let available_choices := selected_situation.choices.filter
            (fun c => player_meets_requirements p c.requirements)
          if available_choices.isEmpty then .ok (none, rng2)
          else
            match mapWithRng (buildOption p selected_situation) available_choices rng2 with
            | .error e => .error e
            | .ok (options, rng3) =>
              .ok (some
                { title := title,
                  description := description,
                  options := options,
                  min_tier := selected_situation.tier_min,
                  max_tier := selected_situation.tier_max,
                  is_generic := false,
                  life_stage := p.life_stage,
                  procedural_id := some selected_situation.id,
                  procedural_domain := some selected_situation.domain.as_str }, rng3)

/-- The diagnostic placeholder event of game_data.rs lines 140-161
(title "No Event Found!", one no-op "Continue" option). -/
def no_event_found_event (p : LotusApp) : EventData :=
  { title := "No Event Found!",
    description :=
      [Tok.lit "Error: No events found for player tier ", Tok.lit (Nat.repr p.player_tier),
       Tok.lit " and life stage ", Tok.lit (Nat.repr p.life_stage),
       Tok.lit ". Please check events.json."],
    options := [{ text := "Continue",
                  requirements := [],
                  risk_chance := 0,
                  success_outcome := {},
                  success_result := "",
                  failure_outcome := none,
                  failure_result := "" }],
    min_tier := 0,
    max_tier := 99,
    is_generic := true,
    life_stage := 0,
    procedural_id := none,
    procedural_domain := none }

/-- game_data.rs lines 166-190: filter the chosen handcrafted template's
options by the player's requirements and re-wrap (an event whose every option
is filtered out is still returned, with an empty options list). -/
def fallback_finish (p : LotusApp) (chosen_event_template : EventData) : EventData :=
  let available_options := chosen_event_template.options.filter
    (fun option => player_meets_requirements p option.requirements)
  { title := chosen_event_template.title,
    description := chosen_event_template.description,
    options := available_options,
    min_tier := 0,
    max_tier := 0,
    is_generic := false,
    life_stage := chosen_event_template.life_stage,
    procedural_id := none,
    procedural_domain := none }

/-- The strictly-earlier life stages scanned by game_data.rs line 126,
`(1..current_stage).rev()`: `[current_stage-1, ..., 1]`. -/
def pastStages (current_stage : Nat) : List Nat :=
  ((List.range current_stage).drop 1).reverse

/-- game_data.rs `event_database[i]` (panics when out of bounds). -/
def dbGet (db : List EventData) (i : Nat) : Except String EventData :=
  match db[i]? with
  | none => .error "index out of bounds"
  | some e => .ok e

/-- game_data.rs lines 100-190, the handcrafted fallback of `generate_event`:
tier-specific events for the current (stage, tier); else generic events for
the current (stage, tier); else generic events pooled over all strictly
earlier stages at the same tier; else the diagnostic placeholder. -/
def resolve_fallback (p : LotusApp) (rng : Rng) : Except String (EventData × Rng) :=
  let current_tier := p.player_tier
  let current_stage := p.life_stage
  let idx := p.event_index.lookup (current_stage, current_tier)
  let potential_events : List Nat := (idx.map Prod.fst).getD []
  match choose potential_events rng with
  | (some event_index, rng1) =>
    match dbGet p.event_database event_index with
    | .error e => .error e
    | .ok t => .ok (fallback_finish p t, rng1)
  | (none, rng1) =>
    let potential_events := potential_events ++ (idx.map Prod.snd).getD []
    match choose potential_events rng1 with
    | (some event_index, rng2) =>
      match dbGet p.event_database event_index with
      | .error e => .error e
      | .ok t => .ok (fallback_finish p t, rng2)
    | (none, rng2) =>
      let potential_events := potential_events
        ++ (pastStages current_stage).flatMap
            (fun stage => ((p.event_index.lookup (stage, current_tier)).map Prod.snd).getD [])
      match choose potential_events rng2 with
      | (some event_index, rng3) =>
        match dbGet p.event_database event_index with
        | .error e => .error e
        | .ok t => .ok (fallback_finish p t, rng3)
      | (none, rng3) => .ok (no_event_found_event p, rng3)

/-- game_data.rs `generate_event`: the boundary-level function — procedural
generation first, the handcrafted fallback otherwise. -/
def generate_event (p : LotusApp) (rng : Rng) : Except String (EventData × Rng) :=
  match generate_procedural_event p rng with
  | .error e => .error e
  | .ok (some procedural_event, rng1) => .ok (procedural_event, rng1)
  | .ok (none, rng1) => resolve_fallback p rng1

/-- The tier-specific pool of the fallback resolver: first component of the
index entry for the current (life stage, tier). -/
def tsPool (p : LotusApp) : List Nat :=
  ((p.event_index.lookup (p.life_stage, p.player_tier)).map Prod.fst).getD []

/-- The current-stage generic pool of the fallback resolver. -/
def gPool (p : LotusApp) : List Nat :=
  ((p.event_index.lookup (p.life_stage, p.player_tier)).map Prod.snd).getD []

/-- The pooled generic events of all strictly-earlier life stages at the same
tier, in the scan order of game_data.rs line 126. -/
def pastPool (p : LotusApp) : List Nat :=
  (pastStages p.life_stage).flatMap
    (fun stage => ((p.event_index.lookup (stage, p.player_tier)).map Prod.snd).getD [])

/-- The pool the fallback resolver actually draws from: tier-specific if any,
else current-stage generic if any, else the pooled earlier-stage generics. -/
def chosenPool (p : LotusApp) : List Nat :=
  if tsPool p ≠ [] then tsPool p
  else if gPool p ≠ [] then gPool p
  else pastPool p

/-- Whether a substitution run returned normally (rather than panicking). -/
def isOkResult (e : Except String (Text × Rng)) : Bool :=
  match e with
  | .ok _ => true
  | .error _ => false

/-- All-empty word lists. -/
def varsEmpty : VariableLibraries := {}

/-- A player whose four gateable stats are all 100. -/
def statsFullApp : LotusApp :=
  { guanxi_family := 100, guanxi_network := 100, guanxi_party := 100, career_level := 100 }

/-- A handcrafted option gated on career_level 1. -/
def gatedOption : EventOption :=
  { text := "Ask for promotion", requirements := [("career_level", 1)] }

/-- A handcrafted event whose single option is gated. -/
def gatedTemplate : EventData :=
  { title := "Office Review", description := [Tok.lit "The annual review."],
    options := [gatedOption], life_stage := 1 }

/-- A player state (tier 0, stage 1, all stats 0) whose only reachable
handcrafted event is `gatedTemplate`, with an empty situation library. -/
def fallbackApp : LotusApp :=
  { player_tier := 0, life_stage := 1,
    event_database := [gatedTemplate],
    event_index := [((1, 0), ([0], []))] }

/-- Randomness for the `fallbackApp` run: wildcard false, one index draw. -/
def fallbackRng : Rng := { bools := [false], indices := [0] }

/-- What `generate_event fallbackApp fallbackRng` returns: the gated template
with every option filtered out. -/
def emptyOptionsEvent : EventData :=
  { title := "Office Review", description := [Tok.lit "The annual review."],
    options := [], life_stage := 1 }

/-- A complete situation: tier range 0-4, stage range 1-4, one ungated
conform choice. -/
def procSituation : SituationTemplate :=
  { id := "w1", domain := .Work, tier_min := 0, tier_max := 4,
    life_stage_min := 1, life_stage_max := 4, severity := .Medium, base_risk := 10,
    fragments := { openings := [[Tok.lit "A"]], conflicts := [[Tok.lit "B"]],
                   stakes := [[Tok.lit "C"]] },
    choices := [{ archetype := .Conform, text_fragments := ["Do it"],
                  base_stats := { scs_change := 1 }, risk_modifier := 2,
                  requirements := [] }] }

/-- A player for whom `procSituation` is eligible. -/
def procApp : LotusApp :=
  { player_tier := 2, life_stage := 2,
    situation_library := { by_domain := [(.Work, [procSituation])] } }

/-- Randomness for the `procApp` run: wildcard draw, one variance draw, five
index draws (weighted pick, three fragments, one choice text). -/
def procRng : Rng := { bools := [false], floats := [(1, 1)], indices := [0, 0, 0, 0, 0] }

/-- The procedural event generated for `procApp` with `procRng`. -/
def procEvent : EventData :=
  match generate_procedural_event procApp procRng with
  | .ok (some e, _) => e
  | _ => { title := "", description := [], options := [] }

/-- An ungated no-op option for the handcrafted past-stage events. -/
def pastOption : EventOption := { text := "Continue" }

/-- A generic handcrafted event of life stage 2. -/
def pastEventStage2 : EventData :=
  { title := "Past Two", description := [Tok.lit "p2"], options := [pastOption],
    life_stage := 2 }

/-- A generic handcrafted event of life stage 1. -/
def pastEventStage1 : EventData :=
  { title := "Past One", description := [Tok.lit "p1"], options := [pastOption],
    life_stage := 1 }

/-- A stage-3 player whose index holds generic events only for the earlier
stages 2 and 1 (at tier 0), stage 2 being the more recent one. -/
def pastApp : LotusApp :=
  { player_tier := 0, life_stage := 3,
    event_database := [pastEventStage2, pastEventStage1],
    event_index := [((2, 0), ([], [0])), ((1, 0), ([], [1]))] }

/-- Randomness for the `pastApp` run: wildcard false, then the index draw 1,
which lands on the stage-1 event of the pooled [stage-2, stage-1] generics. -/
def pastRng : Rng := { bools := [false], indices := [1] }

/-- What `generate_event pastApp pastRng` returns: the stage-1 event. -/
def pastResult : EventData :=
  { title := "Past One", description := [Tok.lit "p1"], options := [pastOption],
    life_stage := 1 }

/-- A player with an empty handcrafted index, for exercising the placeholder
arm of the fallback resolver. -/
def emptyIndexApp : LotusApp := { player_tier := 1, life_stage := 2 }

/-- A situation template with an empty openings list (malformed authored
content). -/
def emptyFragSituation : SituationTemplate :=
  { id := "bad1", domain := .Family, tier_min := 0, tier_max := 4,
    life_stage_min := 1, life_stage_max := 4, severity := .Low, base_risk := 0,
    fragments := { openings := [], conflicts := [[Tok.lit "c"]], stakes := [[Tok.lit "s"]] },
    choices := [] }

/-- Word lists holding one wait_time entry and one excuse entry. -/
def varsWithWaitTime : VariableLibraries :=
  { wait_time := ["an hour"], excuse_library := ["a pressing family matter"] }

/-- A situation eligible for the membership witness at tier 2, stage 2. -/
def filterSituation : SituationTemplate :=
  { id := "f1", domain := .Public, tier_min := 1, tier_max := 3,
    life_stage_min := 1, life_stage_max := 2, severity := .Medium, base_risk := 5,
    fragments := { openings := [[Tok.lit "o"]], conflicts := [[Tok.lit "c"]],
                   stakes := [[Tok.lit "s"]] },
    choices := [] }

lemma choose_nil (rng : Rng) : choose ([] : List α) rng = (none, rng) := rfl

lemma choose_mem (l : List α) (rng : Rng) (h : l ≠ []) :
    ∃ x rng1, choose l rng = (some x, rng1) ∧ x ∈ l := by
  have hlen : 0 < l.length := List.length_pos.mpr h
  have hmod : rng.nextIndex.1 % l.length < l.length := Nat.mod_lt _ hlen
  refine ⟨l[rng.nextIndex.1 % l.length], rng.nextIndex.2, ?_, List.getElem_mem hmod⟩
  unfold choose
  rw [if_neg (by simp [List.isEmpty_iff, h])]
  dsimp only
  rw [List.getElem?_eq_getElem hmod]

lemma mapWithRng_ok_length (f : α → Rng → Except String (β × Rng)) :
    ∀ (l : List α) (rng : Rng) (bs : List β) (rng1 : Rng),
      mapWithRng f l rng = .ok (bs, rng1) → bs.length = l.length := by
  intro l
  induction l with
  | nil =>
    intro rng bs rng1 h
    unfold mapWithRng at h
    simp only [Except.ok.injEq, Prod.mk.injEq] at h
    simp [← h.1]
  | cons a rest ih =>
    intro rng bs rng1 h
    unfold mapWithRng at h
    rcases hf : f a rng with e | ⟨b, r⟩ <;> rw [hf] at h
    · simp at h
    · dsimp only at h
      rcases hrest : mapWithRng f rest r with e | ⟨bs2, r2⟩ <;> rw [hrest] at h
      · simp at h
      · dsimp only at h
        simp only [Except.ok.injEq, Prod.mk.injEq] at h
        have hlen := ih r bs2 r2 hrest
        simp [← h.1, hlen]

lemma playerStatLookup_unrecognized (p : LotusApp) (key : String)
    (h : key ∉ ["guanxi_family", "guanxi_network", "guanxi_party", "career_level"]) :
    playerStatLookup p key = 0 := by
  unfold playerStatLookup
  simp only [List.mem_cons, List.not_mem_nil, or_false, not_or] at h
  rw [if_neg h.1, if_neg h.2.1, if_neg h.2.2.1, if_neg h.2.2.2]

lemma interval_overlap (a b c d : Nat) (hab : a ≤ b) (hcd : c ≤ d) :
    (∃ t, a ≤ t ∧ t ≤ b ∧ c ≤ t ∧ t ≤ d) ↔ (a ≤ d ∧ c ≤ b) := by
  constructor
  · rintro ⟨t, h1, h2, h3, h4⟩
    omega
  · intro h
    exact ⟨max a c, by omega, by omega, by omega, by omega⟩

lemma mem_replacePh_of_ne {t : Text} {name value : String} (hne : name ≠ "wait_time")
    (h : Tok.ph "wait_time" ∈ t) : Tok.ph "wait_time" ∈ replacePh t name value := by
  unfold replacePh
  rw [List.mem_map]
  exact ⟨Tok.ph "wait_time", h, by simp [Tok.ph.injEq, Ne.symm hne]⟩

lemma substitutionTable_ne_wait_time (v : VariableLibraries) :
    ∀ e ∈ substitutionTable v, e.1 ≠ "wait_time" := by
  intro e he heq
  have hmem : (e.1 : String) ∈ (substitutionTable v).map Prod.fst :=
    List.mem_map_of_mem Prod.fst he
  rw [heq] at hmem
  have hnames : (substitutionTable v).map Prod.fst =
      ["excuse", "work_time", "work_colleague", "work_day", "work_obligation", "work_record",
       "overtime_period", "work_project", "safety_violation", "political_metric",
       "monitoring_target", "political_team_activity", "work_mistake", "bribe_amount",
       "work_decision", "relationship_type", "parent_type", "sibling_type", "relative_type",
       "small_amount", "medium_amount", "large_amount", "time_period", "authority_figure",
       "infraction", "unpractical_subject", "practical_subject", "personal_topic",
       "successful_relative", "unsuitable_match", "political_topic", "day_time",
       "time_duration", "party_observer", "membership_level", "party_official",
       "controversial_topic", "denouncement_target", "political_crime", "volunteer_activity",
       "party_elite", "favor_request", "propaganda_campaign", "propaganda_activity",
       "stranger_type", "small_favor", "public_place", "appointment_type", "public_violation",
       "violation_perpetrator", "public_service", "queue_jumper", "public_transport",
       "seat_requester", "suspicious_behavior", "survey_topic"] := rfl
  rw [hnames] at hmem
  exact absurd hmem (by decide)

lemma wait_time_foldl :
    ∀ (entries : List (String × List String)) (st : Text × Rng),
      (∀ e ∈ entries, e.1 ≠ "wait_time") →
      Tok.ph "wait_time" ∈ st.1 →
      Tok.ph "wait_time" ∈ (entries.foldl substituteOne st).1 := by
  intro entries
  induction entries with
  | nil => intro st _ h; simpa using h
  | cons e rest ih =>
    intro st hne h
    rw [List.foldl_cons]
    apply ih _ (fun x hx => hne x (List.mem_cons_of_mem _ hx))
    unfold substituteOne
    split
    · rcases choose e.2 st.2 with ⟨o, r⟩
      cases o with
      | none => exact h
      | some value =>
        exact mem_replacePh_of_ne (hne e (List.mem_cons_self _ _)) h
    · exact h

lemma colleagueStep_ok (text : Text) (v : VariableLibraries) (tier : Nat) (rng : Rng)
    (h : containsPh text "colleague_descriptor" = true →
      (Option.orElse (v.colleague_descriptors.lookup (Nat.repr tier))
        (fun _ => v.colleague_descriptors.lookup "2")).isSome = true) :
    ∃ st, colleagueStep text v tier rng = .ok st := by
  unfold colleagueStep
  split
  · rename_i hc
    have hs := h hc
    split
    · rename_i ho
      rw [ho] at hs
      simp at hs
    · split
      · exact ⟨_, rfl⟩
      · exact ⟨_, rfl⟩
  · exact ⟨_, rfl⟩

lemma colleagueStep_wait_time (text : Text) (v : VariableLibraries) (tier : Nat) (rng : Rng)
    (st : Text × Rng) (h : colleagueStep text v tier rng = .ok st)
    (hmem : Tok.ph "wait_time" ∈ text) : Tok.ph "wait_time" ∈ st.1 := by
  unfold colleagueStep at h
  split at h
  · split at h
    · simp at h
    · split at h
      · simp only [Except.ok.injEq] at h
        rw [← h]
        exact mem_replacePh_of_ne (by decide) hmem
      · simp only [Except.ok.injEq] at h
        rw [← h]
        exact hmem
  · simp only [Except.ok.injEq] at h
    rw [← h]
    exact hmem

/-- C1 counterexample: `generate_event` returns the handcrafted fallback
event with an empty options list when the handcrafted template's only option
is gated on a stat the player lacks — the returned event has no selectable
option. -/
theorem generate_event_empty_options_cex :
    generate_event fallbackApp fallbackRng = .ok (emptyOptionsEvent, {}) ∧
    emptyOptionsEvent.options = [] := ⟨rfl, rfl⟩

/-- C1 amended: `generate_event` always returns an event (never `None`), and
procedural events and the diagnostic placeholder always carry at least one
option, but a handcrafted fallback event may have every option filtered out
by the player's requirements and is then returned with an empty options
list. -/
theorem generate_event_boundary_amended :
    (∀ (p : LotusApp) (rng : Rng) (ev : EventData) (rng1 : Rng),
      generate_procedural_event p rng = .ok (some ev, rng1) → ev.options ≠ []) ∧
    (∀ p : LotusApp, (no_event_found_event p).options ≠ []) ∧
    (∃ (p : LotusApp) (rng : Rng) (ev : EventData) (rng1 : Rng),
      generate_event p rng = .ok (ev, rng1) ∧ ev.options = []) := by
  refine ⟨?_, ?_, ?_⟩
  · intro p rng ev rng1 h
    unfold generate_procedural_event at h
    dsimp only at h
    split at h
    · simp at h
    · split at h
      · simp at h
      · split at h
        · simp at h
        · split at h
          · simp at h
          · split at h
            · simp at h
            · split at h
              · simp at h
              · rename_i hne wscrut opts rng3 heq
                clear wscrut
                have hlen := mapWithRng_ok_length _ _ _ _ _ heq
                rw [List.isEmpty_iff] at hne
                simp only [Except.ok.injEq, Prod.mk.injEq, Option.some.injEq] at h
                obtain ⟨hev, -⟩ := h
                rw [← hev]
                dsimp only
                intro h0
                rw [h0] at hlen
                simp only [List.length_nil] at hlen
                exact hne (List.eq_nil_of_length_eq_zero hlen.symm)
  · intro p
    simp [no_event_found_event]
  · exact ⟨fallbackApp, fallbackRng, emptyOptionsEvent, {}, rfl, rfl⟩

/-- C1 witness: a concrete successful procedural generation, whose event has
a non-empty options list by the first amended part. -/
theorem generate_event_boundary_amended_witness :
    generate_procedural_event procApp procRng = .ok (some procEvent, ({} : Rng)) ∧
    procEvent.options ≠ [] :=
  ⟨rfl, generate_event_boundary_amended.1 procApp procRng procEvent {} rfl⟩

/-- C2 counterexample: a requirements map holding the unrecognized key "luck"
with required value 1 filters the choice out even for a player whose four
recognized stats are all 100 — the unrecognized entry is not treated as
always satisfied. -/
theorem unrecognized_requirement_cex :
    player_meets_requirements statsFullApp [("luck", 1)] = false := by decide

/-- C2 amended: an unrecognized requirement key is looked up as player value
0, so its entry is satisfied exactly when the required value is 0: a positive
required value under an unrecognized key always filters the choice out, and a
zero required value under an unrecognized key never blocks. -/
theorem unrecognized_requirement_amended :
    (∀ (p : LotusApp) (reqs : List (String × Nat)) (k : String) (v : Nat),
      k ∉ ["guanxi_family", "guanxi_network", "guanxi_party", "career_level"] →
      (k, v) ∈ reqs → 0 < v → player_meets_requirements p reqs = false) ∧
    (∀ (p : LotusApp) (k : String) (rest : List (String × Nat)),
      k ∉ ["guanxi_family", "guanxi_network", "guanxi_party", "career_level"] →
      player_meets_requirements p ((k, 0) :: rest) = player_meets_requirements p rest) := by
  constructor
  · intro p reqs k v hk hmem hv
    rw [player_meets_requirements, Bool.eq_false_iff]
    intro hall
    rw [List.all_eq_true] at hall
    have := hall (k, v) hmem
    rw [playerStatLookup_unrecognized p k hk] at this
    simp at this
    omega
  · intro p k rest hk
    rw [player_meets_requirements, player_meets_requirements, List.all_cons]
    rw [playerStatLookup_unrecognized p k hk]
    simp

/-- C2 witness: concrete applications of both amended parts at the key
"luck". -/
theorem unrecognized_requirement_amended_witness :
    player_meets_requirements statsFullApp [("luck", 1)] = false ∧
    player_meets_requirements statsFullApp [("luck", 0)] =
      player_meets_requirements statsFullApp [] :=
  ⟨unrecognized_requirement_amended.1 statsFullApp [("luck", 1)] "luck" 1 (by decide)
      (by decide) (by decide),
   unrecognized_requirement_amended.2 statsFullApp "luck" [] (by decide)⟩

/-- C4 counterexample: for a stage-3 player whose index holds generic events
for the earlier stages 2 and 1, the fallback returns the stage-1 event on
index draw 1 even though stage 2 — the more recent earlier stage — has a
generic event: earlier stages are pooled, not tried most-recent-first. -/
theorem resolve_fallback_order_cex :
    generate_event pastApp pastRng = .ok (pastResult, {}) ∧
    pastApp.event_index.lookup (2, 0) = some ([], [0]) ∧
    pastApp.event_database[0]? = some pastEventStage2 ∧
    pastEventStage2.life_stage = 2 ∧
    pastResult.life_stage = 1 := ⟨rfl, rfl, rfl, rfl, rfl⟩

/-- C4 amended: the fallback resolver draws from the first non-empty pool of:
tier-specific events for the current (stage, tier); generic events for the
current (stage, tier); and the generic events of all strictly-earlier stages
at the same tier pooled together and drawn from uniformly (no preference for
the more recent earlier stage); the diagnostic placeholder is returned
exactly when all three pools are empty. -/
theorem resolve_fallback_pools (p : LotusApp) (rng : Rng)
    (hdb : ∀ i ∈ tsPool p ++ gPool p ++ pastPool p, i < p.event_database.length) :
    (chosenPool p = [] → resolve_fallback p rng = .ok (no_event_found_event p, rng)) ∧
    (chosenPool p ≠ [] → ∃ i t rng1, i ∈ chosenPool p ∧ p.event_database[i]? = some t ∧
      resolve_fallback p rng = .ok (fallback_finish p t, rng1)) := by
  by_cases h1 : tsPool p = []
  · by_cases h2 : gPool p = []
    · by_cases h3 : pastPool p = []
      · -- all three pools empty: the placeholder is returned
        constructor
        · intro _
          unfold resolve_fallback
          dsimp only
          unfold tsPool at h1
          unfold gPool at h2
          unfold pastPool at h3
          rw [h1, choose_nil]
          dsimp only
          rw [List.nil_append, h2, choose_nil]
          dsimp only
          rw [List.nil_append, h3, choose_nil]
        · intro hne
          exfalso
          apply hne
          unfold chosenPool
          rw [if_neg (not_not_intro h1), if_neg (not_not_intro h2)]
          exact h3
      · -- draw from the pooled earlier-stage generics
        constructor
        · intro hcp
          exfalso
          unfold chosenPool at hcp
          rw [if_neg (not_not_intro h1), if_neg (not_not_intro h2)] at hcp
          exact h3 hcp
        · intro _
          obtain ⟨x, rng1, hch, hmem⟩ := choose_mem (pastPool p) rng h3
          have hx : x < p.event_database.length := hdb x (by simp [hmem])
          have hget : p.event_database[x]? = some p.event_database[x] :=
            List.getElem?_eq_getElem hx
          refine ⟨x, p.event_database[x], rng1, ?_, hget, ?_⟩
          · unfold chosenPool
            rw [if_neg (not_not_intro h1), if_neg (not_not_intro h2)]
            exact hmem
          · unfold resolve_fallback
            dsimp only
            unfold tsPool at h1
            unfold gPool at h2
            rw [h1, choose_nil]
            dsimp only
            rw [List.nil_append, h2, choose_nil]
            dsimp only
            rw [List.nil_append]
            unfold pastPool at hch
            rw [hch]
            dsimp only
            unfold dbGet
            rw [hget]
    · -- draw from the current-stage generic pool
      constructor
      · intro hcp
        exfalso
        unfold chosenPool at hcp
        rw [if_neg (not_not_intro h1), if_pos h2] at hcp
        exact h2 hcp
      · intro _
        obtain ⟨x, rng1, hch, hmem⟩ := choose_mem (gPool p) rng h2
        have hx : x < p.event_database.length := hdb x (by simp [hmem])
        have hget : p.event_database[x]? = some p.event_database[x] :=
          List.getElem?_eq_getElem hx
        refine ⟨x, p.event_database[x], rng1, ?_, hget, ?_⟩
        · unfold chosenPool
          rw [if_neg (not_not_intro h1), if_pos h2]
          exact hmem
        · unfold resolve_fallback
          dsimp only
          unfold tsPool at h1
          rw [h1, choose_nil]
          dsimp only
          rw [List.nil_append]
          unfold gPool at hch
          rw [hch]
          dsimp only
          unfold dbGet
          rw [hget]
  · -- draw from the tier-specific pool
    constructor
    · intro hcp
      exfalso
      unfold chosenPool at hcp
      rw [if_pos h1] at hcp
      exact h1 hcp
    · intro _
      obtain ⟨x, rng1, hch, hmem⟩ := choose_mem (tsPool p) rng h1
      have hx : x < p.event_database.length := hdb x (by simp [hmem])
      have hget : p.event_database[x]? = some p.event_database[x] :=
        List.getElem?_eq_getElem hx
      refine ⟨x, p.event_database[x], rng1, ?_, hget, ?_⟩
      · unfold chosenPool
        rw [if_pos h1]
        exact hmem
      · unfold resolve_fallback
        dsimp only
        unfold tsPool at hch
        rw [hch]
        dsimp only
        unfold dbGet
        rw [hget]

/-- C4 witness: for a player with an empty handcrafted index every pool is
empty and the resolver returns the diagnostic placeholder. -/
theorem resolve_fallback_pools_witness :
    chosenPool emptyIndexApp = [] ∧
    resolve_fallback emptyIndexApp {} = .ok (no_event_found_event emptyIndexApp, {}) :=
  ⟨rfl, (resolve_fallback_pools emptyIndexApp {} (by decide)).1 rfl⟩

/-- C5 counterexample: a parsed config holding a situation with an empty
openings list is accepted by library construction (no load-time error), and
`assemble_description` on that situation panics at generation time. -/
theorem empty_fragments_load_cex :
    from_embedded_configs ⟨[]⟩ ⟨[emptyFragSituation]⟩ ⟨[]⟩ ⟨[]⟩ varsEmpty =
      .ok { by_domain :=
              [(EventDomain.Work, []), (EventDomain.Family, [emptyFragSituation]),
               (EventDomain.Public, []), (EventDomain.Party, [])],
            variables' := varsEmpty } ∧
    emptyFragSituation.fragments.openings = [] ∧
    assemble_description emptyFragSituation.fragments varsEmpty 2 {} =
      .error "No opening fragments" :=
  ⟨rfl, rfl, rfl⟩

/-- C5 amended: library construction rejects nothing once the embedded TOML
has parsed — empty fragment lists load as-is (empty word lists only log
warnings) — and a situation whose openings list is empty makes
`assemble_description` panic at generation time instead. -/
theorem library_load_amended :
    (∀ (work family pub party : SituationConfig) (v : VariableLibraries),
      ∃ lib, from_embedded_configs work family pub party v = .ok lib) ∧
    (∀ (frags : NarrativeFragments) (v : VariableLibraries) (tier : Nat) (rng : Rng),
      frags.openings = [] →
      assemble_description frags v tier rng = .error "No opening fragments") := by
  constructor
  · intro work family pub party v
    exact ⟨_, rfl⟩
  · intro frags v tier rng h
    unfold assemble_description
    rw [h, choose_nil]

/-- C5 witness: the amended theorem applied to the concrete malformed
situation. -/
theorem library_load_amended_witness :
    emptyFragSituation.fragments.openings = [] ∧
    assemble_description emptyFragSituation.fragments varsEmpty 0 {} =
      .error "No opening fragments" :=
  ⟨rfl, library_load_amended.2 emptyFragSituation.fragments varsEmpty 0 {} rfl⟩

/-- C6 counterexample: on a text holding `{colleague_descriptor}` with a
`colleague_descriptors` map containing neither the player's tier key nor the
default key "2", `substitute_variables` panics ("No colleague descriptors")
instead of leaving the placeholder unresolved. -/
theorem substitute_variables_panic_cex :
    substitute_variables [Tok.ph "colleague_descriptor"] varsEmpty 0 {} =
      .error "No colleague descriptors" := rfl

/-- C6 amended: `substitute_variables` returns normally for every input whose
text either does not contain `{colleague_descriptor}` or whose
`colleague_descriptors` map has the player's tier key or the default key "2";
only the doubly-missing descriptor key panics. -/
theorem substitute_variables_total_amended :
    ∀ (text : Text) (v : VariableLibraries) (tier : Nat) (rng : Rng),
      (containsPh text "colleague_descriptor" = true →
        (Option.orElse (v.colleague_descriptors.lookup (Nat.repr tier))
          (fun _ => v.colleague_descriptors.lookup "2")).isSome) →
      isOkResult (substitute_variables text v tier rng) = true := by
  intro text v tier rng h
  obtain ⟨st, hst⟩ := colleagueStep_ok text v tier rng h
  unfold substitute_variables
  rw [hst]
  rfl

/-- C6 witness: a text carrying only `{excuse}` substitutes without
panicking. -/
theorem substitute_variables_total_amended_witness :
    isOkResult (substitute_variables [Tok.ph "excuse"] varsWithWaitTime 0
      { indices := [0] }) = true :=
  substitute_variables_total_amended [Tok.ph "excuse"] varsWithWaitTime 0
    { indices := [0] } (by decide)

/-- C8: `calculate_stats` draws a single variance value per call and scales
all six base deltas by the same multiplier
(tier + 1) · 1.5 · severity_multiplier · variance, truncating each product
toward zero; with base scs_change 10, tier 2, severity High and variance 1
the scs_change result is 90. -/
theorem calculate_stats_spec_thm :
    (∀ (base : StatProfile) (tier : Nat) (sev : Severity) (rng : Rng),
      calculate_stats base tier sev rng =
        ({ scs_change := truncF (Frac.mul ⟨base.scs_change, 1⟩
              (Frac.mul (Frac.mul (Frac.mul ⟨(tier : Int) + 1, 1⟩ ⟨3, 2⟩)
                (severityMultiplier sev)) rng.nextFloat.1)),
           finance_change := truncF (Frac.mul ⟨base.finance_change, 1⟩
              (Frac.mul (Frac.mul (Frac.mul ⟨(tier : Int) + 1, 1⟩ ⟨3, 2⟩)
                (severityMultiplier sev)) rng.nextFloat.1)),
           career_level_change := truncF (Frac.mul ⟨base.career_level_change, 1⟩
              (Frac.mul (Frac.mul (Frac.mul ⟨(tier : Int) + 1, 1⟩ ⟨3, 2⟩)
                (severityMultiplier sev)) rng.nextFloat.1)),
           guanxi_family_change := truncF (Frac.mul ⟨base.guanxi_family_change, 1⟩
              (Frac.mul (Frac.mul (Frac.mul ⟨(tier : Int) + 1, 1⟩ ⟨3, 2⟩)
                (severityMultiplier sev)) rng.nextFloat.1)),
           guanxi_network_change := truncF (Frac.mul ⟨base.guanxi_network_change, 1⟩
              (Frac.mul (Frac.mul (Frac.mul ⟨(tier : Int) + 1, 1⟩ ⟨3, 2⟩)
                (severityMultiplier sev)) rng.nextFloat.1)),
           guanxi_party_change := truncF (Frac.mul ⟨base.guanxi_party_change, 1⟩
              (Frac.mul (Frac.mul (Frac.mul ⟨(tier : Int) + 1, 1⟩ ⟨3, 2⟩)
                (severityMultiplier sev)) rng.nextFloat.1)) },
         { rng with floats := rng.floats.tail })) ∧
    (calculate_stats { scs_change := 10 } 2 .High { floats := [(1, 1)] }).1.scs_change = 90 :=
  ⟨fun _ _ _ _ => rfl, by decide⟩

/-- C10: `substitute_variables` never substitutes `{wait_time}` — whenever a
run returns normally, every occurrence of the `wait_time` placeholder in the
input text is still present in the output, for every `VariableLibraries`
value, including one whose `wait_time` word-list is non-empty. -/
theorem wait_time_never_substituted :
    ∀ (text : Text) (v : VariableLibraries) (tier : Nat) (rng : Rng)
      (out : Text) (rng1 : Rng),
      substitute_variables text v tier rng = .ok (out, rng1) →
      Tok.ph "wait_time" ∈ text → Tok.ph "wait_time" ∈ out := by
  intro text v tier rng out rng1 h hmem
  unfold substitute_variables at h
  split at h
  · simp at h
  · rename_i st hst
    simp only [Except.ok.injEq] at h
    have h1 : ((substitutionTable v).foldl substituteOne st).1 = out := by rw [h]
    rw [← h1]
    exact wait_time_foldl _ _ (substitutionTable_ne_wait_time v)
      (colleagueStep_wait_time text v tier rng st hst hmem)

/-- C7: a situation passes `filter_situations` exactly when its tier range
overlaps [player_tier − 1, player_tier + 1] (saturating at 0), its life-stage
range overlaps [max(life_stage − 1, 1), life_stage], its id has not been
encountered, and — unless the wildcard flag was drawn — its domain differs
from each of the last two recent domains; the wildcard exempts only the
domain condition. -/
theorem filter_situations_mem_iff
    (situations : List SituationTemplate) (player_tier life_stage : Nat)
    (recent_domains : List EventDomain) (encounter_history : List String)
    (allow_wildcard : Bool) (s : SituationTemplate)
    (htier : s.tier_min ≤ s.tier_max) (hstage : s.life_stage_min ≤ s.life_stage_max)
    (hls : 1 ≤ life_stage) :
    s ∈ filter_situations situations player_tier life_stage recent_domains
        encounter_history allow_wildcard ↔
      s ∈ situations
      ∧ (∃ t, s.tier_min ≤ t ∧ t ≤ s.tier_max ∧ player_tier - 1 ≤ t ∧ t ≤ player_tier + 1)
      ∧ (∃ u, s.life_stage_min ≤ u ∧ u ≤ s.life_stage_max
          ∧ max (life_stage - 1) 1 ≤ u ∧ u ≤ life_stage)
      ∧ s.id ∉ encounter_history
      ∧ (allow_wildcard = true ∨ ∀ d ∈ recent_domains.take 2, s.domain ≠ d) := by
  have htol : (player_tier - 1 : Nat) ≤ player_tier + 1 := by omega
  have hstol : max (life_stage - 1) 1 ≤ life_stage := by omega
  rw [filter_situations, List.mem_filter,
      interval_overlap _ _ _ _ htier htol,
      interval_overlap _ _ _ _ hstage hstol]
  simp [situationPasses, List.forall_mem_ne]
  tauto

/-- C7 witness: a Public-domain situation with tier range 1-3 and stage range
1-2 passes the filter for a tier-2, stage-2 player whose recent history is a
Family event, with the wildcard flag down. -/
theorem filter_situations_mem_iff_witness :
    filterSituation ∈ filter_situations [filterSituation] 2 2 [EventDomain.Family] [] false :=
  (filter_situations_mem_iff [filterSituation] 2 2 [EventDomain.Family] [] false
      filterSituation (by decide) (by decide) (by decide)).mpr
    ⟨by decide,
     ⟨2, by decide, by decide, by decide, by decide⟩,
     ⟨2, by decide, by decide, by decide, by decide⟩,
     by decide,
     Or.inr (by decide)⟩

/-- C10 witness: a text consisting of the `wait_time` placeholder passes
through unchanged even though the `wait_time` word-list is non-empty. -/
theorem wait_time_never_substituted_witness :
    varsWithWaitTime.wait_time = ["an hour"] ∧
    Tok.ph "wait_time" ∈ ([Tok.ph "wait_time"] : Text) :=
  ⟨rfl,
   wait_time_never_substituted [Tok.ph "wait_time"] varsWithWaitTime 0 {}
     [Tok.ph "wait_time"] {} rfl (by decide)⟩

end SimpleLake
